import Mathlib

/-!
# Politician test framework — shallow embedding

A shallow embedding of the `politician` test-assertion library:
the suite engine (`TestSuite` in the main module), the base ASCII
reporter (`Reporter` in `reporters/superclass.js`) and the markdown
reporter (`MarkdownReporter` in `reporters/markdown.js`).

Modelling decisions, uniform across the file:

* JS values are modelled by `JSValue`: the primitives the library's
  claims exercise (integers, strings, booleans, `null`, `undefined`)
  plus references `ref n` into an explicit heap of arrays.  JS strict
  equality `===` is value equality on primitives and address equality
  on references, which is exactly propositional equality on `JSValue`
  (floating-point values, and hence `NaN`, are outside the embedding).
* The heap is a list of arrays; address `n` denotes an array iff
  `n` is in range.  Arrays are the only compound values the claims
  exercise, so plain objects are not populated.
* Reporters only write lines through a single `output` sink, so a
  reporter call is modelled as the list of lines it writes, and a
  suite operation returns the suite state paired with the list of
  reporter events it forwards (`REvent`).
* Wall-clock times (`startTime`, `duration`) are outside the
  embedding; the `duration` field of the JS stats record is omitted.
* `((passed / total) * 100).toFixed(2)` is modelled by exact rational
  arithmetic rounded half-up to hundredths (`toFixed2`); on the exact
  percentages the claims exercise this agrees with the float result.
-/

-- ────────────────────────────────────────────────────────────────────
-- Verbosity levels (VERBOSITY_LEVELS in the main module)
-- ────────────────────────────────────────────────────────────────────

def SILENT : Nat := 0

def QUIET : Nat := 1

def NORMAL : Nat := 2

def VERBOSE : Nat := 3

def DEBUG : Nat := 4

-- ────────────────────────────────────────────────────────────────────
-- JS values, heap, strict equality
-- ────────────────────────────────────────────────────────────────────

/-- The fragment of the JS value universe the library's claims
exercise: integer numbers, strings, booleans, `null`, `undefined`,
and references (by heap address) to arrays. -/
inductive JSValue where
  | num : Int → JSValue
  | str : String → JSValue
  | boolV : Bool → JSValue
  | nullV : JSValue
  | undefinedV : JSValue
  | ref : Nat → JSValue
deriving DecidableEq, Repr

/-- The heap: address `n` holds an array with the listed elements
iff `n < h.length`.  Arrays are the only reference values the
claims exercise. -/
abbrev Heap := List (List JSValue)

/-- JS strict equality `===` on the embedded value domain: value
equality on primitives, address identity on references. -/
def strictEq (x y : JSValue) : Bool := decide (x = y)

/-- `Array.isArray`-style lookup: the array stored at a reference,
`none` when the value is not an array reference. -/
def heapArray (h : Heap) : JSValue → Option (List JSValue)
  | JSValue.ref n => h[n]?
  | _ => none

-- ────────────────────────────────────────────────────────────────────
-- Results, assertion outcomes, stats (from the main module)
-- ────────────────────────────────────────────────────────────────────

/-- The per-test record built inside `TestSuite.test`:
`{ id, description, passed, actual, expected, message }`.
`actual`/`expected` are initialised to `null`; `message` is
`none` for the JS `null`/absent message. -/
structure Result where
  id : String
  description : String
  passed : Bool
  actual : JSValue
  expected : JSValue
  message : Option String
deriving DecidableEq, Repr

/-- Behaviour of an assertion callback, as `test` observes it:
it returns a boolean, returns an object (with optional `passed`,
`actual`/`expected` values — `undefinedV` when absent — and an
optional `message`), raises a fault carrying a message, or returns
some other non-boolean non-object value. -/
inductive AssertionOutcome where
  | boolRes : Bool → AssertionOutcome
  | objRes : Option Bool → JSValue → JSValue → Option String → AssertionOutcome
  | throwRes : String → AssertionOutcome
  | otherRes : AssertionOutcome
deriving DecidableEq, Repr

/-- `passRate` in the JS stats record: a formatted string
`((passed/total)*100).toFixed(2)` when `total > 0`, and the JS
number `0` otherwise. -/
inductive PassRate where
  | formatted : String → PassRate
  | numberZero : PassRate
deriving DecidableEq, Repr

/-- The stats snapshot `summary` passes to the reporter.  The
wall-clock `duration` field is outside the embedding and omitted. -/
structure Stats where
  total : Nat
  passed : Nat
  failed : Nat
  passRate : PassRate
deriving DecidableEq, Repr

/-- Two-digit zero-padded rendering of `n % 100`'s value, used for
the fractional part of `toFixed2`. -/
def pad2 (n : Nat) : String :=
  if n < 10 then "0" ++ toString n else toString n

/-- Model of `((passed / total) * 100).toFixed(2)`: the percentage
in exact arithmetic, rounded half-up to hundredths and printed with
exactly two decimals. -/
def toFixed2 (passed total : Nat) : String :=
  let hundredths := (passed * 10000 * 2 + total) / (2 * total)
  toString (hundredths / 100) ++ "." ++ pad2 (hundredths % 100)

-- ────────────────────────────────────────────────────────────────────
-- Reporter events
-- ────────────────────────────────────────────────────────────────────

/-- One forwarded reporter call.  The suite engine gates each of
these on the verbosity level; an operation's event list is empty
when the gate suppresses the call. -/
inductive REvent where
  | headerE : String → REvent
  | sectionE : Nat → String → REvent
  | subsectionE : Nat → Nat → String → REvent
  | codeE : String → String → Option String → REvent
  | testPassedE : String → String → REvent
  | testFailedE : String → String → Result → REvent
  | summaryE : Stats → REvent
  | failureDetailsE : List Result → REvent
  | diffE : JSValue → JSValue → Option String → REvent
  | logE : String → REvent
  | infoE : String → REvent
  | warnE : String → REvent
  | errorE : String → REvent
  | successE : String → REvent
deriving DecidableEq, Repr

-- ────────────────────────────────────────────────────────────────────
-- The suite engine (class TestSuite in the main module)
-- ────────────────────────────────────────────────────────────────────

/-- The mutable state of a `TestSuite`: name, verbosity, the two
counters, and the two result accumulators. -/
structure TestSuite where
  name : String
  verbosity : Nat
  testNumber : Nat
  sectionNumber : Nat
  failures : List Result
  successes : List Result
deriving DecidableEq, Repr

/-- A fresh suite as the constructor builds it (counters zero,
accumulators empty), at the given verbosity. -/
def mkSuite (verbosity : Nat) : TestSuite :=
  { name := "SUITE", verbosity := verbosity, testNumber := 0,
    sectionNumber := 0, failures := [], successes := [] }

/-- `header()`: forwards to the reporter iff verbosity ≥ NORMAL. -/
def TestSuite.header (s : TestSuite) : TestSuite × List REvent :=
  if s.verbosity < NORMAL then (s, [])
  else (s, [REvent.headerE s.name])

/-- `section(title)`: below NORMAL the method returns before touching
any state; otherwise it increments `sectionNumber`, resets
`testNumber`, and forwards the new section number to the reporter.
(`section` is a Lean keyword, hence the name `sectionCmd`.) -/
def TestSuite.sectionCmd (s : TestSuite) (title : String) : TestSuite × List REvent :=
  if s.verbosity < NORMAL then (s, [])
  else
    ({ s with sectionNumber := s.sectionNumber + 1, testNumber := 0 },
     [REvent.sectionE (s.sectionNumber + 1) title])

/-- `subsection(title)`: forwards the current counters iff
verbosity ≥ NORMAL; never changes state. -/
def TestSuite.subsection (s : TestSuite) (title : String) : TestSuite × List REvent :=
  if s.verbosity < NORMAL then (s, [])
  else (s, [REvent.subsectionE s.sectionNumber (s.testNumber + 1) title])

/-- `code(language, content, label)`: forwards iff verbosity ≥ VERBOSE. -/
def TestSuite.code (s : TestSuite) (language content : String)
    (label : Option String) : TestSuite × List REvent :=
  if s.verbosity < VERBOSE then (s, [])
  else (s, [REvent.codeE language content label])

/-- The `result` record `test` builds: id from the incremented test
number, fields defaulted, then filled from the assertion's outcome
(`try`/`catch` converts a raised fault into `passed = false` with the
fault's message; a boolean sets `passed` only; an object is read with
`passed ?? false`; any other return value leaves the defaults). -/
def mkResult (s : TestSuite) (description : String)
    (assertion : AssertionOutcome) : Result :=
  let testId := toString s.sectionNumber ++ "." ++ toString (s.testNumber + 1)
  let base : Result :=
    { id := testId, description := description, passed := false,
      actual := JSValue.nullV, expected := JSValue.nullV, message := none }
  match assertion with
  | AssertionOutcome.boolRes b => { base with passed := b }
  | AssertionOutcome.objRes p a e m =>
      { base with passed := p.getD false, actual := a, expected := e, message := m }
  | AssertionOutcome.throwRes msg => { base with passed := false, message := some msg }
  | AssertionOutcome.otherRes => base

/-- `test(description, assertion)`: increments `testNumber`, builds
the result, appends it to `successes` when it passed (forwarding
`testPassed` iff verbosity ≥ VERBOSE) and to `failures` otherwise
(forwarding `testFailed` iff verbosity ≥ QUIET). -/
def TestSuite.test (s : TestSuite) (description : String)
    (assertion : AssertionOutcome) : TestSuite × List REvent :=
  let result := mkResult s description assertion
  let s1 := { s with testNumber := s.testNumber + 1 }
  if result.passed then
    ({ s1 with successes := s1.successes ++ [result] },
     if VERBOSE ≤ s.verbosity then [REvent.testPassedE result.id description] else [])
  else
    ({ s1 with failures := s1.failures ++ [result] },
     if QUIET ≤ s.verbosity then [REvent.testFailedE result.id description result] else [])

/-- `assertEqual(actual, expected, description)`: `test` with an
assertion returning `{ passed: actual === expected, actual, expected,
message: equal ? null : 'Values do not match' }`. -/
def TestSuite.assertEqual (s : TestSuite) (actual expected : JSValue)
    (description : String) : TestSuite × List REvent :=
  TestSuite.test s description
    (AssertionOutcome.objRes (some (strictEq actual expected)) actual expected
      (if strictEq actual expected then none else some "Values do not match"))

/-- `a.every((element, index) => element === b[index])`, guarded by
the length check in `arraysEqual`; JS indexing out of range yields
`undefined`, modelled by `getD` with default `undefinedV`. -/
def arraysEqual (h : Heap) (a b : JSValue) : Bool :=
  match heapArray h a, heapArray h b with
  | some la, some lb =>
      decide (la.length = lb.length) &&
      (List.range la.length).all
        (fun i => strictEq (la.getD i JSValue.undefinedV) (lb.getD i JSValue.undefinedV))
  | _, _ => false

/-- `assertArraysEqual(actual, expected, description)`: `test` with
the element-wise strict-equality predicate `arraysEqual`. -/
def TestSuite.assertArraysEqual (h : Heap) (s : TestSuite)
    (actual expected : JSValue) (description : String) : TestSuite × List REvent :=
  TestSuite.test s description
    (AssertionOutcome.objRes (some (arraysEqual h actual expected)) actual expected
      (if arraysEqual h actual expected then none else some "Arrays do not match"))

/-- `summary()`: below NORMAL it returns `failures.length === 0` with
no reporter call; otherwise it computes the stats snapshot, forwards
`summary`, forwards `failureDetails` iff verbosity ≥ VERBOSE and at
least one failure exists, and returns `failed === 0`.  It never
assigns to any suite field, so the state component is `s` itself. -/
def TestSuite.summary (s : TestSuite) : TestSuite × Bool × List REvent :=
  if s.verbosity < NORMAL then (s, decide (s.failures.length = 0), [])
  else
    let total := s.successes.length + s.failures.length
    let passed := s.successes.length
    let failed := s.failures.length
    let passRate :=
      if 0 < total then PassRate.formatted (toFixed2 passed total)
      else PassRate.numberZero
    let stats : Stats :=
      { total := total, passed := passed, failed := failed, passRate := passRate }
    (s, decide (failed = 0),
     [REvent.summaryE stats] ++
       (if VERBOSE ≤ s.verbosity ∧ 0 < failed then [REvent.failureDetailsE s.failures]
        else []))

/-- `diff(expected, actual, label)` on the suite: forwards to the
reporter iff verbosity ≥ VERBOSE; never changes state. -/
def TestSuite.diff (s : TestSuite) (expected actual : JSValue)
    (label : Option String) : TestSuite × List REvent :=
  if VERBOSE ≤ s.verbosity then (s, [REvent.diffE expected actual label]) else (s, [])

/-- `log(...)`: forwards iff verbosity ≥ VERBOSE. -/
def TestSuite.log (s : TestSuite) (msg : String) : TestSuite × List REvent :=
  if VERBOSE ≤ s.verbosity then (s, [REvent.logE msg]) else (s, [])

/-- `info(...)`: forwards iff verbosity ≥ NORMAL. -/
def TestSuite.info (s : TestSuite) (msg : String) : TestSuite × List REvent :=
  if NORMAL ≤ s.verbosity then (s, [REvent.infoE msg]) else (s, [])

/-- `warn(...)`: forwards iff verbosity ≥ NORMAL. -/
def TestSuite.warn (s : TestSuite) (msg : String) : TestSuite × List REvent :=
  if NORMAL ≤ s.verbosity then (s, [REvent.warnE msg]) else (s, [])

/-- `error(...)`: forwards iff verbosity ≥ QUIET. -/
def TestSuite.error (s : TestSuite) (msg : String) : TestSuite × List REvent :=
  if QUIET ≤ s.verbosity then (s, [REvent.errorE msg]) else (s, [])

/-- `success(...)`: forwards iff verbosity ≥ VERBOSE. -/
def TestSuite.success (s : TestSuite) (msg : String) : TestSuite × List REvent :=
  if VERBOSE ≤ s.verbosity then (s, [REvent.successE msg]) else (s, [])

-- ────────────────────────────────────────────────────────────────────
-- Operation sequences over a suite
-- ────────────────────────────────────────────────────────────────────

/-- One public suite operation, for reasoning about arbitrary call
sequences. -/
inductive Op where
  | headerOp : Op
  | sectionOp : String → Op
  | subsectionOp : String → Op
  | codeOp : String → String → Option String → Op
  | testOp : String → AssertionOutcome → Op
  | assertEqualOp : JSValue → JSValue → String → Op
  | assertArraysEqualOp : JSValue → JSValue → String → Op
  | summaryOp : Op
  | diffOp : JSValue → JSValue → Option String → Op
  | logOp : String → Op
  | infoOp : String → Op
  | warnOp : String → Op
  | errorOp : String → Op
  | successOp : String → Op
deriving DecidableEq, Repr

/-- Dispatch one operation to the corresponding suite method. -/
def applyOp (h : Heap) (s : TestSuite) : Op → TestSuite × List REvent
  | Op.headerOp => s.header
  | Op.sectionOp t => s.sectionCmd t
  | Op.subsectionOp t => s.subsection t
  | Op.codeOp lg c lb => s.code lg c lb
  | Op.testOp d a => s.test d a
  | Op.assertEqualOp x y d => s.assertEqual x y d
  | Op.assertArraysEqualOp x y d => TestSuite.assertArraysEqual h s x y d
  | Op.summaryOp => ((TestSuite.summary s).1, (TestSuite.summary s).2.2)
  | Op.diffOp e a lb => s.diff e a lb
  | Op.logOp m => s.log m
  | Op.infoOp m => s.info m
  | Op.warnOp m => s.warn m
  | Op.errorOp m => s.error m
  | Op.successOp m => s.success m

/-- Run a sequence of operations, threading the suite state. -/
def runOps (h : Heap) (s : TestSuite) : List Op → TestSuite
  | [] => s
  | op :: rest => runOps h (applyOp h s op).1 rest

/-- The operations that invoke `test` (directly or through the
assertion sugar). -/
def isTestOp : Op → Bool
  | Op.testOp _ _ => true
  | Op.assertEqualOp _ _ _ => true
  | Op.assertArraysEqualOp _ _ _ => true
  | _ => false

/-- Run a list of plain `test` calls (description and assertion
behaviour for each). -/
def runTests (s : TestSuite) (l : List (String × AssertionOutcome)) : TestSuite :=
  l.foldl (fun st p => (TestSuite.test st p.1 p.2).1) s

/-- The stats record carried by the `summary` event a `summary()`
call forwards, when there is one. -/
def summaryEventStats (s : TestSuite) : Option Stats :=
  match (TestSuite.summary s).2.2 with
  | REvent.summaryE st :: _ => some st
  | _ => none

/-- Whether a pass rate is a formatted percentage string (as opposed
to the bare JS number `0`). -/
def isFormattedRate : PassRate → Bool
  | PassRate.formatted _ => true
  | PassRate.numberZero => false

/-- `isFormattedRate` applied to the `passRate` of the stats record
that a `summary()` call forwards, when there is one. -/
def summaryRateIsFormatted (s : TestSuite) : Option Bool :=
  Option.map (fun st => isFormattedRate st.passRate) (summaryEventStats s)

-- ────────────────────────────────────────────────────────────────────
-- Reporter layout and rendering (reporters/superclass.js, markdown.js)
-- ────────────────────────────────────────────────────────────────────

/-- `'─'.repeat(n)`, the box-drawing filler. -/
def dashes (n : Nat) : String := String.mk (List.replicate n '─')

/-- `Reporter._pad(str, length)`: `str + ' '.repeat(Math.max(0,
length - str.length))` (truncated subtraction models the `max 0`). -/
def Reporter.pad (str : String) (targetWidth : Nat) : String :=
  str ++ String.mk (List.replicate (targetWidth - str.length) ' ')

/-- The lines of `JSON.stringify(v, null, 2)` for the embedded value
domain, with a fuel bound for heap traversal (any chain of distinct
addresses is shorter than the heap, so `h.length + 1` fuel renders
every acyclic value fully; JS raises on cyclic values, which the
claims never build).  Inside an array, `undefined` serialises as
`null`; a dangling address cannot arise in JS and renders as `null`. -/
def renderLines (h : Heap) : Nat → JSValue → List String
  | _, JSValue.num i => [toString i]
  | _, JSValue.str s => ["\"" ++ s ++ "\""]
  | _, JSValue.boolV b => [if b then "true" else "false"]
  | _, JSValue.nullV => ["null"]
  | _, JSValue.undefinedV => ["null"]
  | 0, JSValue.ref _ => []
  | fuel + 1, JSValue.ref n =>
    match h[n]? with
    | none => ["null"]
    | some [] => ["[]"]
    | some elems =>
      "[" ::
        (commaSeparate (elems.map (renderLines h fuel))).map (fun l => "  " ++ l) ++
        ["]"]
where
  /-- Append a comma to the last line of every element block except
  the final one, then concatenate the blocks. -/
  commaSeparate : List (List String) → List String
    | [] => []
    | [b] => b
    | b :: rest => appendToLast b ++ commaSeparate rest
  /-- Append a comma to the last line of a block. -/
  appendToLast : List String → List String
    | [] => []
    | [x] => [x ++ ","]
    | x :: xs => x :: appendToLast xs

/-- `String.split('\\n')` on the character list: splitting on every
newline, keeping empty segments (so the result is never empty). -/
def splitLinesList : List Char → List (List Char)
  | [] => [[]]
  | c :: rest =>
    if c = '\n' then [] :: splitLinesList rest
    else
      match splitLinesList rest with
      | [] => [[c]]
      | l :: ls => (c :: l) :: ls

/-- JS `str.split('\\n')`, the line splitter both `diff`
implementations apply to the serialised forms. -/
def splitLines (s : String) : List String :=
  (splitLinesList s.data).map String.mk

/-- `Reporter._stringify(value)`: a string is returned as is, a
non-null object serialises via `JSON.stringify(value, null, 2)`,
anything else renders as `String(value)` (note `String(null)` is
`"null"` and `String(undefined)` is `"undefined"`). -/
def stringify (h : Heap) (v : JSValue) : String :=
  match v with
  | JSValue.str s => s
  | JSValue.ref _ => String.intercalate "\n" (renderLines h (h.length + 1) v)
  | JSValue.num i => toString i
  | JSValue.boolV b => if b then "true" else "false"
  | JSValue.nullV => "null"
  | JSValue.undefinedV => "undefined"

/-- The base reporter's `diff(expected, actual, label)`: the framed
block of output lines; a single `[NO VARIANCE DETECTED]` marker when
the two serialised forms coincide, otherwise both forms in full with
`-`/`+` gutters.  (The JS default label is `'DIFFERENTIAL ANALYSIS'`;
the label is passed explicitly here.) -/
def Reporter.diff (h : Heap) (expected actual : JSValue) (label : String) : List String :=
  let expectedStr := stringify h expected
  let actualStr := stringify h actual
  ["", "┌─[ " ++ label ++ " ]" ++ dashes (74 - label.length), ""] ++
  (if expectedStr = actualStr then
    ["  [NO VARIANCE DETECTED]"]
  else
    ["  EXPECTED STATE:"] ++
    (splitLines expectedStr).map (fun line => "  - " ++ line) ++
    [""] ++
    ["  ACTUAL STATE:"] ++
    (splitLines actualStr).map (fun line => "  + " ++ line)) ++
  ["", "└" ++ dashes 79, ""]

/-- The markdown reporter's `diff(expected, actual, label)`: a
heading, then either the bold no-variance marker or two fenced
`diff` blocks holding the two serialised forms in full. -/
def MarkdownReporter.diff (h : Heap) (expected actual : JSValue)
    (label : String) : List String :=
  let expectedStr := stringify h expected
  let actualStr := stringify h actual
  ["", "### " ++ label, ""] ++
  (if expectedStr = actualStr then
    ["**[NO VARIANCE DETECTED]**", ""]
  else
    ["**Expected State:**", "", "```diff"] ++
    (splitLines expectedStr).map (fun line => "- " ++ line) ++
    ["```", "", "**Actual State:**", "", "```diff"] ++
    (splitLines actualStr).map (fun line => "+ " ++ line) ++
    ["```", ""])

/-- The spec's end-to-end scenario: a fresh VERBOSE suite running one
passing test (`() => true`) and one failing test
(`() => ({passed: false, actual: 1, expected: 2})`). -/
def scenarioSuite : TestSuite :=
  (TestSuite.test (TestSuite.test (mkSuite VERBOSE) "t1" (AssertionOutcome.boolRes true)).1
    "t2" (AssertionOutcome.objRes (some false) (JSValue.num 1) (JSValue.num 2) none)).1

/-- Concrete heap for the array-equality examples:
addresses 0,1 hold two distinct `[1,2,3]` arrays, 2 holds `[1,2]`,
3 holds `[1,2,3]`, 4,5 hold two distinct `[2]` arrays, and 6,7 hold
`[1,[2]]` built over them (so their second elements are distinct
references). -/
def exHeap : Heap :=
  [[JSValue.num 1, JSValue.num 2, JSValue.num 3],
   [JSValue.num 1, JSValue.num 2, JSValue.num 3],
   [JSValue.num 1, JSValue.num 2],
   [JSValue.num 1, JSValue.num 2, JSValue.num 3],
   [JSValue.num 2],
   [JSValue.num 2],
   [JSValue.num 1, JSValue.ref 4],
   [JSValue.num 1, JSValue.ref 5]]

-- ────────────────────────────────────────────────────────────────────
-- Helper lemmas
-- ────────────────────────────────────────────────────────────────────

-- The id of the result a test call builds, from the counters at call
-- time.
theorem mkResult_id (s : TestSuite) (d : String) (a : AssertionOutcome) :
    (mkResult s d a).id = toString s.sectionNumber ++ "." ++ toString (s.testNumber + 1) := by
  cases a <;> rfl

-- `test` always increments the test counter, whatever the outcome.
theorem test_testNumber (s : TestSuite) (d : String) (a : AssertionOutcome) :
    (TestSuite.test s d a).1.testNumber = s.testNumber + 1 := by
  unfold TestSuite.test
  by_cases hp : (mkResult s d a).passed <;> simp [hp]

-- `test` never touches the section counter.
theorem test_sectionNumber (s : TestSuite) (d : String) (a : AssertionOutcome) :
    (TestSuite.test s d a).1.sectionNumber = s.sectionNumber := by
  unfold TestSuite.test
  by_cases hp : (mkResult s d a).passed <;> simp [hp]

-- Running a list of test calls adds their number to the test counter.
theorem runTests_testNumber (l : List (String × AssertionOutcome)) :
    ∀ s : TestSuite, (runTests s l).testNumber = s.testNumber + l.length := by
  induction l with
  | nil => intro s; rfl
  | cons p rest ih =>
    intro s
    show (runTests (TestSuite.test s p.1 p.2).1 rest).testNumber = _
    rw [ih, test_testNumber]
    simp [List.length_cons]
    omega

-- Running a list of test calls leaves the section counter unchanged.
theorem runTests_sectionNumber (l : List (String × AssertionOutcome)) :
    ∀ s : TestSuite, (runTests s l).sectionNumber = s.sectionNumber := by
  induction l with
  | nil => intro s; rfl
  | cons p rest ih =>
    intro s
    show (runTests (TestSuite.test s p.1 p.2).1 rest).sectionNumber = _
    rw [ih, test_sectionNumber]

/-- C1: the claim quantifies over every verbosity level, but below
NORMAL the `section` method returns before touching any counter:
at verbosity SILENT the section number does not increase. -/
theorem C1_counterexample :
    (TestSuite.sectionCmd (mkSuite 0) "TITLE").1.sectionNumber ≠
      (mkSuite 0).sectionNumber + 1 := by
  decide

/-- C1 (amended): below NORMAL, `section(title)` is a complete no-op
(no counter change, no reporter call); at verbosity ≥ NORMAL it
increments `sectionNumber`, resets `testNumber` to 0 and forwards the
new section number — and then, after any `k` test calls inside the
section, the next test call builds a Result whose id is
`"<sectionNumber>.<k+1>"` (so numbering restarts at 1 in the new
section). -/
theorem C1_section_numbering :
    (∀ (s : TestSuite) (title : String), s.verbosity < NORMAL →
      TestSuite.sectionCmd s title = (s, [])) ∧
    (∀ (s : TestSuite) (title : String), NORMAL ≤ s.verbosity →
      (TestSuite.sectionCmd s title).1.sectionNumber = s.sectionNumber + 1 ∧
      (TestSuite.sectionCmd s title).1.testNumber = 0 ∧
      (TestSuite.sectionCmd s title).2 = [REvent.sectionE (s.sectionNumber + 1) title] ∧
      ∀ (l : List (String × AssertionOutcome)) (d : String) (a : AssertionOutcome),
        (mkResult (runTests (TestSuite.sectionCmd s title).1 l) d a).id =
          toString (s.sectionNumber + 1) ++ "." ++ toString (l.length + 1)) := by
  constructor
  · intro s title hlt
    unfold TestSuite.sectionCmd
    rw [if_pos hlt]
  · intro s title hge
    have hnot : ¬ s.verbosity < NORMAL := Nat.not_lt.mpr hge
    refine ⟨?_, ?_, ?_, ?_⟩
    · unfold TestSuite.sectionCmd; rw [if_neg hnot]
    · unfold TestSuite.sectionCmd; rw [if_neg hnot]
    · unfold TestSuite.sectionCmd; rw [if_neg hnot]
    · intro l d a
      rw [mkResult_id, runTests_sectionNumber, runTests_testNumber]
      unfold TestSuite.sectionCmd
      rw [if_neg hnot]
      simp

/-- C1 witness: at QUIET a `section` call changes nothing; at VERBOSE,
after one test in section 1, the next test call gets id `"1.2"`. -/
theorem C1_section_numbering_witness :
    TestSuite.sectionCmd (mkSuite 1) "T" = (mkSuite 1, []) ∧
    (mkResult (runTests (TestSuite.sectionCmd (mkSuite 3) "T").1
        [("a", AssertionOutcome.boolRes true)]) "b" AssertionOutcome.otherRes).id = "1.2" := by
  constructor
  · exact C1_section_numbering.1 (mkSuite 1) "T" (by decide)
  · have h := (C1_section_numbering.2 (mkSuite 3) "T" (by decide)).2.2.2
      [("a", AssertionOutcome.boolRes true)] "b" AssertionOutcome.otherRes
    rw [h]
    decide

/-- C2: `summary()` returns `true` iff the failure accumulator is
empty, at every verbosity level; below NORMAL it forwards no reporter
call while still returning that boolean. -/
theorem C2_summary_boolean :
    ∀ s : TestSuite,
      ((TestSuite.summary s).2.1 = true ↔ s.failures = []) ∧
      (s.verbosity < NORMAL → (TestSuite.summary s).2.2 = []) := by
  intro s
  constructor
  · unfold TestSuite.summary
    split <;> simp [List.length_eq_zero]
  · intro hlt
    unfold TestSuite.summary
    rw [if_pos hlt]

/-- C2 witness: a SILENT suite with one recorded failure — `summary`
returns `false` and forwards nothing; a SILENT fresh suite returns
`true`. -/
theorem C2_summary_boolean_witness :
    (TestSuite.summary (mkSuite 0)).2.1 = true ∧
    (TestSuite.summary (mkSuite 0)).2.2 = [] := by
  refine ⟨(C2_summary_boolean (mkSuite 0)).1.mpr rfl,
    (C2_summary_boolean (mkSuite 0)).2 (by decide)⟩

/-- C3: an assertion that raises a fault is recovered inside `test`
(the embedded `test` is a total function — nothing propagates): the
call appends to the failure accumulator a Result with `passed = false`
whose message is the fault's message, and leaves the successes alone;
in particular a fault with message `"boom"` yields a failing Result
with message `"boom"`. -/
theorem C3_assertion_fault :
    ∀ (s : TestSuite) (d msg : String),
      (TestSuite.test s d (AssertionOutcome.throwRes msg)).1.failures =
        s.failures ++
          [{ id := toString s.sectionNumber ++ "." ++ toString (s.testNumber + 1),
             description := d, passed := false, actual := JSValue.nullV,
             expected := JSValue.nullV, message := some msg }] ∧
      (TestSuite.test s d (AssertionOutcome.throwRes msg)).1.successes = s.successes ∧
      (TestSuite.test (mkSuite 3) "t" (AssertionOutcome.throwRes "boom")).1.failures =
        [{ id := "0.1", description := "t", passed := false, actual := JSValue.nullV,
           expected := JSValue.nullV, message := some "boom" }] := by
  intro s d msg
  refine ⟨?_, ?_, by decide⟩ <;> rfl

/-- C4: `assertEqual(x, x, d)` always appends a passing Result with no
message; for `x ≠ y` (strict inequality on the embedded value domain),
`assertEqual(x, y, d)` always appends a failing Result with message
`"Values do not match"`. -/
theorem C4_assertEqual :
    ∀ (s : TestSuite) (x y : JSValue) (d : String),
      ((TestSuite.assertEqual s x x d).1.successes =
        s.successes ++
          [{ id := toString s.sectionNumber ++ "." ++ toString (s.testNumber + 1),
             description := d, passed := true, actual := x, expected := x,
             message := none }] ∧
       (TestSuite.assertEqual s x x d).1.failures = s.failures) ∧
      (x ≠ y →
        (TestSuite.assertEqual s x y d).1.failures =
          s.failures ++
            [{ id := toString s.sectionNumber ++ "." ++ toString (s.testNumber + 1),
               description := d, passed := false, actual := x, expected := y,
               message := some "Values do not match" }] ∧
        (TestSuite.assertEqual s x y d).1.successes = s.successes) := by
  intro s x y d
  constructor
  · have hxx : strictEq x x = true := by simp [strictEq]
    unfold TestSuite.assertEqual TestSuite.test mkResult
    simp [hxx]
  · intro hne
    have hxy : strictEq x y = false := by simp [strictEq, hne]
    unfold TestSuite.assertEqual TestSuite.test mkResult
    simp [hxy]

/-- C4 witness: on a fresh VERBOSE suite, `assertEqual(1, 1, d)`
records one passing Result without message and `assertEqual(1, 2, d)`
records one failing Result with the fixed message. -/
theorem C4_assertEqual_witness :
    (TestSuite.assertEqual (mkSuite 3) (JSValue.num 1) (JSValue.num 1) "d").1.successes =
      [{ id := "0.1", description := "d", passed := true, actual := JSValue.num 1,
         expected := JSValue.num 1, message := none }] ∧
    (TestSuite.assertEqual (mkSuite 3) (JSValue.num 1) (JSValue.num 2) "d").1.failures =
      [{ id := "0.1", description := "d", passed := false, actual := JSValue.num 1,
         expected := JSValue.num 2, message := some "Values do not match" }] := by
  have h1 := (C4_assertEqual (mkSuite 3) (JSValue.num 1) (JSValue.num 2) "d").1.1
  have h2 := ((C4_assertEqual (mkSuite 3) (JSValue.num 1) (JSValue.num 2) "d").2
    (by decide)).1
  constructor
  · rw [h1]; decide
  · rw [h2]; decide

-- The fractional part printed by `toFixed2` always has exactly two
-- digits.
theorem pad2_length_two : ∀ n, n < 100 → (pad2 n).length = 2 := by
  decide

/-- C5: `assertArraysEqual` passes iff both arguments are arrays of
the same length that are strictly equal position by position (JS
out-of-range indexing yields `undefined`, hence the `getD` default);
concretely, two distinct `[1,2,3]` arrays pass, `[1,2]` against
`[1,2,3]` fails, and two distinct `[1,[2]]` arrays fail because their
nested arrays are distinct references. -/
theorem C5_assertArraysEqual :
    (∀ (h : Heap) (a b : JSValue),
      arraysEqual h a b = true ↔
        ∃ la lb, heapArray h a = some la ∧ heapArray h b = some lb ∧
          la.length = lb.length ∧
          ∀ i, i < la.length →
            la.getD i JSValue.undefinedV = lb.getD i JSValue.undefinedV) ∧
    (TestSuite.assertArraysEqual exHeap (mkSuite 3)
      (JSValue.ref 0) (JSValue.ref 1) "d1").1.successes.length = 1 ∧
    (TestSuite.assertArraysEqual exHeap (mkSuite 3)
      (JSValue.ref 0) (JSValue.ref 1) "d1").1.failures.length = 0 ∧
    (TestSuite.assertArraysEqual exHeap (mkSuite 3)
      (JSValue.ref 2) (JSValue.ref 3) "d2").1.failures.length = 1 ∧
    (TestSuite.assertArraysEqual exHeap (mkSuite 3)
      (JSValue.ref 6) (JSValue.ref 7) "d3").1.failures.length = 1 := by
  refine ⟨?_, by decide, by decide, by decide, by decide⟩
  intro h a b
  unfold arraysEqual
  cases ha : heapArray h a <;> cases hb : heapArray h b <;>
    simp [ha, hb, List.all_eq_true, List.mem_range, strictEq]

/-- C5 witness: the characterisation applied to the two distinct
`[1,2,3]` arrays of the example heap. -/
theorem C5_assertArraysEqual_witness :
    arraysEqual exHeap (JSValue.ref 0) (JSValue.ref 1) = true := by
  exact (C5_assertArraysEqual.1 exHeap (JSValue.ref 0) (JSValue.ref 1)).mpr
    ⟨[JSValue.num 1, JSValue.num 2, JSValue.num 3],
     [JSValue.num 1, JSValue.num 2, JSValue.num 3],
     by decide, by decide, by decide, by decide⟩

/-- C6: at verbosity NORMAL with no tests run, the code sets
`passRate` to the number `0`, not a percentage string formatted with
two decimals: the claim's universally quantified formatting statement
fails on the empty run. -/
theorem C6_counterexample :
    summaryEventStats (mkSuite NORMAL) =
      some { total := 0, passed := 0, failed := 0, passRate := PassRate.numberZero } ∧
    summaryRateIsFormatted (mkSuite NORMAL) = some false := by
  exact ⟨rfl, rfl⟩

/-- C6 (amended): at verbosity ≥ NORMAL the stats snapshot forwarded
by `summary()` has `total = passed + failed` with `passed`/`failed`
the accumulator lengths, and `passRate` is the percentage formatted
with two-decimal precision whenever at least one test ran (it is the
number `0` when `total = 0`); `toFixed2` always carries exactly two
decimals; and in the end-to-end scenario (one passing, one failing
test at VERBOSE) the snapshot is `total=2, passed=1, failed=1,
passRate="50.00"` and `summary()` returns `false`. -/
theorem C6_summary_stats :
    (∀ s : TestSuite, NORMAL ≤ s.verbosity →
      summaryEventStats s =
        some { total := s.successes.length + s.failures.length,
               passed := s.successes.length,
               failed := s.failures.length,
               passRate :=
                 if 0 < s.successes.length + s.failures.length then
                   PassRate.formatted
                     (toFixed2 s.successes.length (s.successes.length + s.failures.length))
                 else PassRate.numberZero }) ∧
    (∀ p t : Nat, ∃ intPart fracPart : String,
      toFixed2 p t = intPart ++ "." ++ fracPart ∧ fracPart.length = 2) ∧
    summaryEventStats scenarioSuite =
      some { total := 2, passed := 1, failed := 1,
             passRate := PassRate.formatted "50.00" } ∧
    (TestSuite.summary scenarioSuite).2.1 = false := by
  refine ⟨?_, ?_, by decide, by decide⟩
  · intro s hge
    have hnot : ¬ s.verbosity < NORMAL := Nat.not_lt.mpr hge
    unfold summaryEventStats TestSuite.summary
    rw [if_neg hnot]
    simp
  · intro p t
    refine ⟨toString ((p * 10000 * 2 + t) / (2 * t) / 100),
      pad2 ((p * 10000 * 2 + t) / (2 * t) % 100), rfl, ?_⟩
    exact pad2_length_two _ (Nat.mod_lt _ (by omega))

/-- C6 witness: the amended statement applied to the end-to-end
scenario suite. -/
theorem C6_summary_stats_witness :
    summaryEventStats scenarioSuite =
      some { total := scenarioSuite.successes.length + scenarioSuite.failures.length,
             passed := scenarioSuite.successes.length,
             failed := scenarioSuite.failures.length,
             passRate :=
               if 0 < scenarioSuite.successes.length + scenarioSuite.failures.length then
                 PassRate.formatted
                   (toFixed2 scenarioSuite.successes.length
                     (scenarioSuite.successes.length + scenarioSuite.failures.length))
               else PassRate.numberZero } := by
  exact C6_summary_stats.1 scenarioSuite (by decide)

/-- C8: `_pad` right-pads with spaces to at least the target width:
the result's length is the maximum of the two widths, the original
text is kept unchanged at the front, everything past it is a space,
text already at least as wide is returned unchanged (no truncation),
and the two documented examples hold. -/
theorem C8_pad :
    ∀ (s : String) (w : Nat),
      (Reporter.pad s w).length = max s.length w ∧
      (Reporter.pad s w).data.take s.length = s.data ∧
      (∀ c ∈ (Reporter.pad s w).data.drop s.length, c = ' ') ∧
      (w ≤ s.length → Reporter.pad s w = s) ∧
      Reporter.pad "abc" 10 = "abc       " ∧
      Reporter.pad "abcdefghij" 5 = "abcdefghij" := by
  intro s w
  have hdata : (Reporter.pad s w).data = s.data ++ List.replicate (w - s.length) ' ' := by
    show (s ++ String.mk (List.replicate (w - s.length) ' ')).data = _
    rw [String.data_append]
  refine ⟨?_, ?_, ?_, ?_, by decide, by decide⟩
  · show (Reporter.pad s w).data.length = max s.length w
    rw [hdata]
    rw [List.length_append, List.length_replicate]
    show s.length + _ = _
    omega
  · rw [hdata]
    exact List.take_left s.data _
  · intro c hc
    rw [hdata, show s.length = s.data.length from rfl, List.drop_left s.data _] at hc
    exact List.eq_of_mem_replicate hc
  · intro hle
    have hz : w - s.length = 0 := Nat.sub_eq_zero_of_le hle
    apply String.ext
    rw [hdata, hz]
    simp

/-- C8 witness: the no-truncation branch applied to the documented
oversized example. -/
theorem C8_pad_witness : Reporter.pad "abcdefghij" 5 = "abcdefghij" := by
  exact (C8_pad "abcdefghij" 5).2.2.2.1 (by decide)

-- Each `test` call appends exactly one result to exactly one of the
-- two accumulators.
theorem test_accumulators (s : TestSuite) (d : String) (a : AssertionOutcome) :
    ∃ ts tf : List Result,
      (TestSuite.test s d a).1.successes = s.successes ++ ts ∧
      (TestSuite.test s d a).1.failures = s.failures ++ tf ∧
      ts.length + tf.length = 1 := by
  by_cases hp : (mkResult s d a).passed
  · exact ⟨[mkResult s d a], [],
      by simp [TestSuite.test, hp], by simp [TestSuite.test, hp], rfl⟩
  · exact ⟨[], [mkResult s d a],
      by simp [TestSuite.test, hp], by simp [TestSuite.test, hp], rfl⟩

-- Every operation only ever appends to the accumulators, and appends
-- exactly one result iff it is a test-like operation.
theorem applyOp_accumulators (h : Heap) (s : TestSuite) (op : Op) :
    ∃ ts tf : List Result,
      (applyOp h s op).1.successes = s.successes ++ ts ∧
      (applyOp h s op).1.failures = s.failures ++ tf ∧
      ts.length + tf.length = (if isTestOp op then 1 else 0) := by
  cases op with
  | testOp d a =>
    obtain ⟨ts, tf, h1, h2, h3⟩ := test_accumulators s d a
    exact ⟨ts, tf, h1, h2, by rw [h3]; rfl⟩
  | assertEqualOp x y d =>
    obtain ⟨ts, tf, h1, h2, h3⟩ := test_accumulators s d
      (AssertionOutcome.objRes (some (strictEq x y)) x y
        (if strictEq x y then none else some "Values do not match"))
    exact ⟨ts, tf, h1, h2, by rw [h3]; rfl⟩
  | assertArraysEqualOp x y d =>
    obtain ⟨ts, tf, h1, h2, h3⟩ := test_accumulators s d
      (AssertionOutcome.objRes (some (arraysEqual h x y)) x y
        (if arraysEqual h x y then none else some "Arrays do not match"))
    exact ⟨ts, tf, h1, h2, by rw [h3]; rfl⟩
  | headerOp =>
    exact ⟨[], [], by simp only [applyOp]; unfold TestSuite.header; split <;> simp,
      by simp only [applyOp]; unfold TestSuite.header; split <;> simp, rfl⟩
  | sectionOp t =>
    exact ⟨[], [], by simp only [applyOp]; unfold TestSuite.sectionCmd; split <;> simp,
      by simp only [applyOp]; unfold TestSuite.sectionCmd; split <;> simp, rfl⟩
  | subsectionOp t =>
    exact ⟨[], [], by simp only [applyOp]; unfold TestSuite.subsection; split <;> simp,
      by simp only [applyOp]; unfold TestSuite.subsection; split <;> simp, rfl⟩
  | codeOp lg c lb =>
    exact ⟨[], [], by simp only [applyOp]; unfold TestSuite.code; split <;> simp,
      by simp only [applyOp]; unfold TestSuite.code; split <;> simp, rfl⟩
  | summaryOp =>
    exact ⟨[], [], by simp only [applyOp]; unfold TestSuite.summary; split <;> simp,
      by simp only [applyOp]; unfold TestSuite.summary; split <;> simp, rfl⟩
  | diffOp e a lb =>
    exact ⟨[], [], by simp only [applyOp]; unfold TestSuite.diff; split <;> simp,
      by simp only [applyOp]; unfold TestSuite.diff; split <;> simp, rfl⟩
  | logOp m =>
    exact ⟨[], [], by simp only [applyOp]; unfold TestSuite.log; split <;> simp,
      by simp only [applyOp]; unfold TestSuite.log; split <;> simp, rfl⟩
  | infoOp m =>
    exact ⟨[], [], by simp only [applyOp]; unfold TestSuite.info; split <;> simp,
      by simp only [applyOp]; unfold TestSuite.info; split <;> simp, rfl⟩
  | warnOp m =>
    exact ⟨[], [], by simp only [applyOp]; unfold TestSuite.warn; split <;> simp,
      by simp only [applyOp]; unfold TestSuite.warn; split <;> simp, rfl⟩
  | errorOp m =>
    exact ⟨[], [], by simp only [applyOp]; unfold TestSuite.error; split <;> simp,
      by simp only [applyOp]; unfold TestSuite.error; split <;> simp, rfl⟩
  | successOp m =>
    exact ⟨[], [], by simp only [applyOp]; unfold TestSuite.success; split <;> simp,
      by simp only [applyOp]; unfold TestSuite.success; split <;> simp, rfl⟩

/-- C9: every `test` call (directly or through the assertion sugar)
appends its one Result to exactly one accumulator and never both;
non-test operations leave both accumulators untouched; and after any
operation sequence both accumulators keep their old contents as a
prefix (nothing is removed or mutated, insertion order preserved)
while the lengths sum to the old sum plus the number of test-like
operations performed. -/
theorem C9_accumulator_invariant :
    (∀ (s : TestSuite) (d : String) (a : AssertionOutcome),
      ((TestSuite.test s d a).1.successes, (TestSuite.test s d a).1.failures) =
        (if (mkResult s d a).passed then (s.successes ++ [mkResult s d a], s.failures)
         else (s.successes, s.failures ++ [mkResult s d a]))) ∧
    (∀ (h : Heap) (s : TestSuite) (op : Op), isTestOp op = false →
      (applyOp h s op).1.successes = s.successes ∧
      (applyOp h s op).1.failures = s.failures) ∧
    (∀ (h : Heap) (ops : List Op) (s : TestSuite),
      (runOps h s ops).successes.take s.successes.length = s.successes ∧
      (runOps h s ops).failures.take s.failures.length = s.failures ∧
      (runOps h s ops).successes.length + (runOps h s ops).failures.length =
        s.successes.length + s.failures.length + (ops.filter isTestOp).length) := by
  refine ⟨?_, ?_, ?_⟩
  · intro s d a
    by_cases hp : (mkResult s d a).passed <;> simp [TestSuite.test, hp]
  · intro h s op hop
    obtain ⟨ts, tf, h1, h2, h3⟩ := applyOp_accumulators h s op
    rw [hop] at h3
    simp at h3
    rw [h1, h2, h3.1, h3.2]
    simp
  · intro h ops
    induction ops with
    | nil =>
      intro s
      exact ⟨List.take_length s.successes, List.take_length s.failures, by simp [runOps]⟩
    | cons op rest ih =>
      intro s
      obtain ⟨ts, tf, h1, h2, h3⟩ := applyOp_accumulators h s op
      obtain ⟨ih1, ih2, ih3⟩ := ih (applyOp h s op).1
      have hrun : runOps h s (op :: rest) = runOps h (applyOp h s op).1 rest := rfl
      have hles : s.successes.length ≤ (applyOp h s op).1.successes.length := by
        rw [h1]; simp
      have hlef : s.failures.length ≤ (applyOp h s op).1.failures.length := by
        rw [h2]; simp
      refine ⟨?_, ?_, ?_⟩
      · rw [hrun]
        have e1 := congrArg (List.take s.successes.length) ih1
        rw [List.take_take, min_eq_left hles] at e1
        rw [e1, h1]
        exact List.take_left _ _
      · rw [hrun]
        have e2 := congrArg (List.take s.failures.length) ih2
        rw [List.take_take, min_eq_left hlef] at e2
        rw [e2, h2]
        exact List.take_left _ _
      · have l1 : (applyOp h s op).1.successes.length = s.successes.length + ts.length := by
          rw [h1]; simp
        have l2 : (applyOp h s op).1.failures.length = s.failures.length + tf.length := by
          rw [h2]; simp
        have hf : ((op :: rest).filter isTestOp).length =
            ts.length + tf.length + (rest.filter isTestOp).length := by
          rw [h3]
          cases hc : isTestOp op
          · simp [List.filter_cons, hc]
          · simp [List.filter_cons, hc]
            omega
        rw [hrun, ih3, l1, l2, hf]
        omega

/-- C9 witness: a non-test operation (`header`) leaves both
accumulators of a fresh VERBOSE suite unchanged. -/
theorem C9_accumulator_invariant_witness :
    (applyOp [] (mkSuite 3) Op.headerOp).1.successes = (mkSuite 3).successes ∧
    (applyOp [] (mkSuite 3) Op.headerOp).1.failures = (mkSuite 3).failures :=
  C9_accumulator_invariant.2.1 [] (mkSuite 3) Op.headerOp (by decide)

/-- C10: `summary()` leaves the suite state unchanged at every
verbosity (it is the identity on the state component), so any number
of repeated `summary()` calls return the same boolean, and a test
call after `summary()` behaves exactly as it would have without it
(same id, same everything). -/
theorem C10_summary_frame :
    ∀ s : TestSuite,
      (TestSuite.summary s).1 = s ∧
      (∀ n : Nat,
        (TestSuite.summary ((fun t => (TestSuite.summary t).1)^[n] s)).2.1 =
          (TestSuite.summary s).2.1) ∧
      (∀ (d : String) (a : AssertionOutcome),
        TestSuite.test (TestSuite.summary s).1 d a = TestSuite.test s d a) := by
  intro s
  have hfix : (TestSuite.summary s).1 = s := by
    unfold TestSuite.summary
    split <;> rfl
  refine ⟨hfix, ?_, ?_⟩
  · intro n
    rw [Function.iterate_fixed hfix n]
  · intro d a
    rw [hfix]

-- The base reporter's frame line opens with a box-drawing corner, so
-- it can never coincide with the no-variance marker line.
theorem header_ne_marker (label : String) :
    "┌─[ " ++ label ++ " ]" ++ dashes (74 - label.length) ≠ "  [NO VARIANCE DETECTED]" := by
  intro hcontra
  have h2 := congrArg String.data hcontra
  simp only [String.data_append] at h2
  have h3 : '┌' = ' ' := by
    have := congrArg List.head? h2
    simp at this
  exact absurd h3 (by decide)

-- The markdown heading line opens with a hash, so it can never
-- coincide with the bold no-variance marker line.
theorem mdheading_ne_marker (label : String) :
    "### " ++ label ≠ "**[NO VARIANCE DETECTED]**" := by
  intro hcontra
  have h2 := congrArg String.data hcontra
  simp only [String.data_append] at h2
  have h3 : '#' = '*' := by
    have := congrArg List.head? h2
    simp at this
  exact absurd h3 (by decide)

/-- C7: when the two serialised forms coincide, both the base
reporter's and the markdown reporter's `diff` render exactly the
fixed frame holding the no-variance marker once (the marker line
occurs exactly once and no expected/actual content appears); when
the forms differ, both render the expected and the actual serialised
forms in full (every line, with the respective gutters). -/
theorem C7_diff_rendering :
    ∀ (h : Heap) (e a : JSValue) (label : String),
      (stringify h e = stringify h a →
        Reporter.diff h e a label =
          ["", "┌─[ " ++ label ++ " ]" ++ dashes (74 - label.length), "",
           "  [NO VARIANCE DETECTED]", "", "└" ++ dashes 79, ""] ∧
        (Reporter.diff h e a label).count "  [NO VARIANCE DETECTED]" = 1 ∧
        MarkdownReporter.diff h e a label =
          ["", "### " ++ label, "", "**[NO VARIANCE DETECTED]**", ""] ∧
        (MarkdownReporter.diff h e a label).count "**[NO VARIANCE DETECTED]**" = 1) ∧
      (stringify h e ≠ stringify h a →
        (∃ pre mid post : List String,
          Reporter.diff h e a label =
            pre ++ (splitLines (stringify h e)).map (fun line => "  - " ++ line) ++
            mid ++ (splitLines (stringify h a)).map (fun line => "  + " ++ line) ++ post) ∧
        (∃ pre mid post : List String,
          MarkdownReporter.diff h e a label =
            pre ++ (splitLines (stringify h e)).map (fun line => "- " ++ line) ++
            mid ++ (splitLines (stringify h a)).map (fun line => "+ " ++ line) ++ post)) := by
  intro h e a label
  constructor
  · intro heq
    have hbase : Reporter.diff h e a label =
        ["", "┌─[ " ++ label ++ " ]" ++ dashes (74 - label.length), "",
         "  [NO VARIANCE DETECTED]", "", "└" ++ dashes 79, ""] := by
      simp [Reporter.diff, heq]
    have hmd : MarkdownReporter.diff h e a label =
        ["", "### " ++ label, "", "**[NO VARIANCE DETECTED]**", ""] := by
      simp [MarkdownReporter.diff, heq]
    refine ⟨hbase, ?_, hmd, ?_⟩
    · rw [hbase]
      simp [List.count_cons, header_ne_marker label,
        (by decide : ("└" ++ dashes 79 : String) ≠ "  [NO VARIANCE DETECTED]"),
        (by decide : ("" : String) ≠ "  [NO VARIANCE DETECTED]")]
    · rw [hmd]
      simp [List.count_cons, mdheading_ne_marker label,
        (by decide : ("" : String) ≠ "**[NO VARIANCE DETECTED]**")]
  · intro hne
    constructor
    · refine ⟨["", "┌─[ " ++ label ++ " ]" ++ dashes (74 - label.length), "",
        "  EXPECTED STATE:"], ["", "  ACTUAL STATE:"], ["", "└" ++ dashes 79, ""], ?_⟩
      simp [Reporter.diff, hne]
    · refine ⟨["", "### " ++ label, "", "**Expected State:**", "", "```diff"],
        ["```", "", "**Actual State:**", "", "```diff"], ["```", ""], ?_⟩
      simp [MarkdownReporter.diff, hne]

/-- C7 witness: `diff(1, 1, "L")` renders the marker exactly once in
both reporters; `diff(1, 2, "L")` renders the serialised expected
line `"  - 1"` (base) and actual line `"+ 2"` (markdown). -/
theorem C7_diff_rendering_witness :
    (Reporter.diff [] (JSValue.num 1) (JSValue.num 1) "L").count "  [NO VARIANCE DETECTED]" = 1 ∧
    (MarkdownReporter.diff [] (JSValue.num 1) (JSValue.num 1) "L").count
      "**[NO VARIANCE DETECTED]**" = 1 ∧
    "  - 1" ∈ Reporter.diff [] (JSValue.num 1) (JSValue.num 2) "L" ∧
    "+ 2" ∈ MarkdownReporter.diff [] (JSValue.num 1) (JSValue.num 2) "L" := by
  have he := (C7_diff_rendering [] (JSValue.num 1) (JSValue.num 1) "L").1 rfl
  have hn := (C7_diff_rendering [] (JSValue.num 1) (JSValue.num 2) "L").2 (by decide)
  refine ⟨he.2.1, he.2.2.2, ?_, ?_⟩
  · obtain ⟨pre, mid, post, hout⟩ := hn.1
    rw [hout]
    have hmap : (splitLines (stringify [] (JSValue.num 1))).map
        (fun line => "  - " ++ line) = ["  - 1"] := by decide
    rw [hmap]
    simp
  · obtain ⟨pre, mid, post, hout⟩ := hn.2
    rw [hout]
    have hmap : (splitLines (stringify [] (JSValue.num 2))).map
        (fun line => "+ " ++ line) = ["+ 2"] := by decide
    rw [hmap]
    simp
